import Mathlib

/-!
Verification of the Zerynth VCNL4200 driver (src/vcnl4200.py).

The driver talks to the sensor over an I2C bus.  We embed the bus as an
abstract behavior (`BusBehavior`): a decision, for each transaction, whether
it succeeds, and the bytes returned by a combined write-then-read.  Each
driver operation is embedded as a function that takes the behavior and the
trace of bus transactions issued so far and returns the extended trace
together with an `Except BusError` result.  As in Python, a raised `BusError`
propagates while the side effects (trace entries) already performed remain.
Successful transactions are recorded in the trace; a failed transaction is
not recorded (it did not take effect).
-/

/-- A bus transaction, as seen on the wire.  `start` is the open/start of the
I2C port performed by the constructor (drvsel, address, clock rate);
`write` is a blocking full-buffer write; `writeRead` is the combined
write-then-read issued by register reads (register address, read length). -/
inductive BusEvent
  | start (drvsel addr clk : Nat)
  | write (bytes : List Nat)
  | writeRead (addr len : Nat)
deriving Repr, DecidableEq

/-- The single error kind of the transport layer (`BusError` in the spec,
`PeripheralError` family in Zerynth): every bus failure surfaces as this. -/
inductive BusError
  | busError
deriving Repr, DecidableEq

/-- Abstract behavior of the underlying I2C transport: whether the open/start
succeeds, whether a given write succeeds (possibly depending on the trace so
far), and the bytes answered to a combined write-then-read (`none` = failure). -/
structure BusBehavior where
  startResult : Nat → Nat → Nat → Bool
  writeResult : List BusEvent → List Nat → Bool
  readResult : List BusEvent → Nat → Nat → Option (List Nat)

/-- `DEFAULT_I2C_ADDR = 0x51` (src/vcnl4200.py line 20). -/
def DEFAULT_I2C_ADDR : Nat := 0x51

/-- `REG_ALS_DATA = 0x09`. -/
def REG_ALS_DATA : Nat := 0x09

/-- `REG_PS_DATA = 0x08`. -/
def REG_PS_DATA : Nat := 0x08

/-- `REG_ALS_CONF = 0x00`. -/
def REG_ALS_CONF : Nat := 0x00

/-- `REG_PS_CONF_1_2 = 0x03`. -/
def REG_PS_CONF_1_2 : Nat := 0x03

/-- `REG_PS_CONF_3 = 0x04`. -/
def REG_PS_CONF_3 : Nat := 0x04

/-- `DEFAULT_ALS_CONF = 0b00000000`. -/
def DEFAULT_ALS_CONF : Nat := 0b00000000

/-- `DEFAULT_PS_CONF1 = 0b11001010`. -/
def DEFAULT_PS_CONF1 : Nat := 0b11001010

/-- `DEFAULT_PS_CONF2 = 0b00001000`. -/
def DEFAULT_PS_CONF2 : Nat := 0b00001000

/-- `DEFAULT_PS_CONF3 = 0b00000000`. -/
def DEFAULT_PS_CONF3 : Nat := 0b00000000

/-- The device object: the constructor stores the I2C port parameters
(`self.port = i2c.I2C(drvsel, address, clk)`). -/
structure VCNL4200 where
  drvsel : Nat
  address : Nat
  clk : Nat
deriving Repr, DecidableEq

/-- `self.port.start()`: opens/starts the bus at the stored address and clock
rate.  On success the transaction is recorded; on failure a `BusError` is
raised and nothing is recorded. -/
def I2C.busStart (b : BusBehavior) (tr : List BusEvent) (drvsel address clk : Nat) :
    List BusEvent × Except BusError Unit :=
  if b.startResult drvsel address clk then
    (tr ++ [BusEvent.start drvsel address clk], Except.ok ())
  else
    (tr, Except.error BusError.busError)

/-- `self.port.write(bytes)`: a blocking full-buffer bus write. -/
def I2C.busWrite (b : BusBehavior) (tr : List BusEvent) (bytes : List Nat) :
    List BusEvent × Except BusError Unit :=
  if b.writeResult tr bytes then
    (tr ++ [BusEvent.write bytes], Except.ok ())
  else
    (tr, Except.error BusError.busError)

/-- `self.port.write_read(address, n)`: combined write-then-read returning the
answered bytes. -/
def I2C.busWriteRead (b : BusBehavior) (tr : List BusEvent) (address n : Nat) :
    List BusEvent × Except BusError (List Nat) :=
  match b.readResult tr address n with
  | none => (tr, Except.error BusError.busError)
  | some data => (tr ++ [BusEvent.writeRead address n], Except.ok data)

namespace VCNL4200

/-- `_write_register(self, address, low_byte, high_byte)` (line 112-113):
`return self.port.write([address, low_byte, high_byte])`. -/
def _write_register (b : BusBehavior) (tr : List BusEvent)
    (address low_byte high_byte : Nat) : List BusEvent × Except BusError Unit :=
  I2C.busWrite b tr [address, low_byte, high_byte]

/-- `_write_register` called with the `high_byte` parameter omitted: the
source default is `high_byte=0x00`. -/
def _write_register_default (b : BusBehavior) (tr : List BusEvent)
    (address low_byte : Nat) : List BusEvent × Except BusError Unit :=
  _write_register b tr address low_byte 0x00

/-- `_read_register(self, address)` (lines 108-110):
`data = self.port.write_read(address, 2); return data[0] + data[1] * 256`. -/
def _read_register (b : BusBehavior) (tr : List BusEvent) (address : Nat) :
    List BusEvent × Except BusError Nat :=
  match I2C.busWriteRead b tr address 2 with
  | (tr1, Except.error e) => (tr1, Except.error e)
  | (tr1, Except.ok data) => (tr1, Except.ok (data.getD 0 0 + data.getD 1 0 * 256))

/-- `get_distance(self)` (line 72): `return self._read_register(REG_PS_DATA)`. -/
def get_distance (b : BusBehavior) (tr : List BusEvent) :
    List BusEvent × Except BusError Nat :=
  _read_register b tr REG_PS_DATA

/-- `get_ambient_light(self)` (line 81): `return self._read_register(REG_ALS_DATA)`. -/
def get_ambient_light (b : BusBehavior) (tr : List BusEvent) :
    List BusEvent × Except BusError Nat :=
  _read_register b tr REG_ALS_DATA

/-- `configure_proximity_sensor(self, conf1, conf2, conf3)` (lines 94-95):
`self._write_register(REG_PS_CONF_1_2, conf1, conf2)` then
`self._write_register(REG_PS_CONF_3, conf3)` (high byte defaulted).  If the
first write raises, the second is not attempted and the error propagates. -/
def configure_proximity_sensor (b : BusBehavior) (tr : List BusEvent)
    (conf1 conf2 conf3 : Nat) : List BusEvent × Except BusError Unit :=
  match _write_register b tr REG_PS_CONF_1_2 conf1 conf2 with
  | (tr1, Except.error e) => (tr1, Except.error e)
  | (tr1, Except.ok _) => _write_register_default b tr1 REG_PS_CONF_3 conf3

/-- `configure_ambient_light_sensor(self, conf)` (line 106):
`self._write_register(REG_ALS_CONF, conf)` (high byte defaulted). -/
def configure_ambient_light_sensor (b : BusBehavior) (tr : List BusEvent)
    (conf : Nat) : List BusEvent × Except BusError Unit :=
  _write_register_default b tr REG_ALS_CONF conf

/-- `__init__(self, drvsel, ps=True, als=True, address=DEFAULT_I2C_ADDR, clk=100000)`
(lines 58-64): creates the port object, starts it, then configures whichever
sensors are enabled with the default configurations.  Any `BusError` raised
by a step propagates out of the constructor, later steps not attempted. -/
def init (b : BusBehavior) (drvsel : Nat) (ps als : Bool) (address clk : Nat) :
    List BusEvent × Except BusError VCNL4200 :=
  match I2C.busStart b [] drvsel address clk with
  | (tr, Except.error e) => (tr, Except.error e)
  | (tr, Except.ok _) =>
    match (if ps then
             configure_proximity_sensor b tr DEFAULT_PS_CONF1 DEFAULT_PS_CONF2 DEFAULT_PS_CONF3
           else (tr, Except.ok ())) with
    | (tr1, Except.error e) => (tr1, Except.error e)
    | (tr1, Except.ok _) =>
      match (if als then configure_ambient_light_sensor b tr1 DEFAULT_ALS_CONF
             else (tr1, Except.ok ())) with
      | (tr2, Except.error e) => (tr2, Except.error e)
      | (tr2, Except.ok _) =>
        (tr2, Except.ok { drvsel := drvsel, address := address, clk := clk })

/-- `__init__` with the `address` and `clk` parameters omitted: the source
defaults (line 58) are `address=DEFAULT_I2C_ADDR` and `clk=100000`. -/
def init_default (b : BusBehavior) (drvsel : Nat) (ps als : Bool) :
    List BusEvent × Except BusError VCNL4200 :=
  init b drvsel ps als DEFAULT_I2C_ADDR 100000

end VCNL4200

/-- A bus on which every transaction succeeds and every two-byte read answers
`[0x34, 0x12]`. -/
def okBus : BusBehavior where
  startResult := fun _ _ _ => true
  writeResult := fun _ _ => true
  readResult := fun _ _ _ => some [0x34, 0x12]

/-- C1: for every two-byte bus response `[lo, hi]` with each byte in 0..255,
`get_distance` and `get_ambient_light` return `lo + hi * 256`
(little-endian decode). -/
theorem C1_little_endian_decode (b : BusBehavior) (tr : List BusEvent) (lo hi : Nat)
    (hlo : lo ≤ 255) (hhi : hi ≤ 255) :
    (b.readResult tr REG_PS_DATA 2 = some [lo, hi] →
      (VCNL4200.get_distance b tr).2 = Except.ok (lo + hi * 256)) ∧
    (b.readResult tr REG_ALS_DATA 2 = some [lo, hi] →
      (VCNL4200.get_ambient_light b tr).2 = Except.ok (lo + hi * 256)) := by
  constructor
  · intro h
    simp [VCNL4200.get_distance, VCNL4200._read_register, I2C.busWriteRead, h]
  · intro h
    simp [VCNL4200.get_ambient_light, VCNL4200._read_register, I2C.busWriteRead, h]

/-- C1 witness: on a bus answering `[0x34, 0x12]`, both readers return
`0x1234` (4660). -/
theorem C1_little_endian_decode_witness :
    (VCNL4200.get_distance okBus []).2 = Except.ok 4660 ∧
    (VCNL4200.get_ambient_light okBus []).2 = Except.ok 4660 :=
  ⟨(C1_little_endian_decode okBus [] 0x34 0x12 (by decide) (by decide)).1 rfl,
   (C1_little_endian_decode okBus [] 0x34 0x12 (by decide) (by decide)).2 rfl⟩

/-- C3: for every bytes `conf1 conf2 conf3`, when the bus accepts all writes,
`configure_proximity_sensor` issues exactly two writes in order:
`[0x03, conf1, conf2]` then `[0x04, conf3, 0x00]`. -/
theorem C3_ps_config_two_writes (b : BusBehavior) (tr : List BusEvent)
    (conf1 conf2 conf3 : Nat)
    (hok : ∀ tr1 bytes, b.writeResult tr1 bytes = true) :
    VCNL4200.configure_proximity_sensor b tr conf1 conf2 conf3 =
      (tr ++ [BusEvent.write [0x03, conf1, conf2], BusEvent.write [0x04, conf3, 0x00]],
       Except.ok ()) := by
  simp [VCNL4200.configure_proximity_sensor, VCNL4200._write_register,
    VCNL4200._write_register_default, I2C.busWrite, hok, REG_PS_CONF_1_2, REG_PS_CONF_3]

/-- C3 witness: `configure_proximity_sensor(0xCA, 0x08, 0x00)` on an all-ok
bus issues `[0x03, 0xCA, 0x08]` then `[0x04, 0x00, 0x00]`. -/
theorem C3_ps_config_two_writes_witness :
    VCNL4200.configure_proximity_sensor okBus [] 0xCA 0x08 0x00 =
      ([BusEvent.write [0x03, 0xCA, 0x08], BusEvent.write [0x04, 0x00, 0x00]],
       Except.ok ()) :=
  C3_ps_config_two_writes okBus [] 0xCA 0x08 0x00 (fun _ _ => rfl)

/-- C4: for every byte `conf`, when the bus accepts the write,
`configure_ambient_light_sensor` issues exactly one write `[0x00, conf, 0x00]`,
the omitted high byte of `_write_register` defaulting to `0x00`. -/
theorem C4_als_config_single_write (b : BusBehavior) (tr : List BusEvent) (conf : Nat)
    (hok : ∀ tr1 bytes, b.writeResult tr1 bytes = true) :
    VCNL4200.configure_ambient_light_sensor b tr conf =
      (tr ++ [BusEvent.write [0x00, conf, 0x00]], Except.ok ()) ∧
    VCNL4200._write_register_default b tr REG_ALS_CONF conf =
      VCNL4200._write_register b tr REG_ALS_CONF conf 0x00 := by
  constructor
  · simp [VCNL4200.configure_ambient_light_sensor, VCNL4200._write_register_default,
      VCNL4200._write_register, I2C.busWrite, hok, REG_ALS_CONF]
  · rfl

/-- C4 witness: `configure_ambient_light_sensor(0x07)` on an all-ok bus issues
exactly the write `[0x00, 0x07, 0x00]`. -/
theorem C4_als_config_single_write_witness :
    VCNL4200.configure_ambient_light_sensor okBus [] 0x07 =
      ([BusEvent.write [0x00, 0x07, 0x00]], Except.ok ()) :=
  (C4_als_config_single_write okBus [] 0x07 (fun _ _ => rfl)).1

/-- C2: constructor configuration writes, with the start and all writes
accepted by the bus: `ps=true, als=false` issues exactly the two default
proximity writes; `als=true, ps=false` issues exactly the default ALS write;
both false issues no configuration write at all. -/
theorem C2_init_default_config_writes (b : BusBehavior) (d a c : Nat)
    (hstart : b.startResult d a c = true)
    (hok : ∀ tr1 bytes, b.writeResult tr1 bytes = true) :
    VCNL4200.init b d true false a c =
      ([BusEvent.start d a c, BusEvent.write [0x03, 0xCA, 0x08],
        BusEvent.write [0x04, 0x00, 0x00]],
       Except.ok { drvsel := d, address := a, clk := c }) ∧
    VCNL4200.init b d false true a c =
      ([BusEvent.start d a c, BusEvent.write [0x00, 0x00, 0x00]],
       Except.ok { drvsel := d, address := a, clk := c }) ∧
    VCNL4200.init b d false false a c =
      ([BusEvent.start d a c],
       Except.ok { drvsel := d, address := a, clk := c }) := by
  refine ⟨?_, ?_, ?_⟩ <;>
    simp [VCNL4200.init, I2C.busStart, hstart,
      VCNL4200.configure_proximity_sensor, VCNL4200.configure_ambient_light_sensor,
      VCNL4200._write_register, VCNL4200._write_register_default, I2C.busWrite, hok,
      REG_PS_CONF_1_2, REG_PS_CONF_3, REG_ALS_CONF,
      DEFAULT_PS_CONF1, DEFAULT_PS_CONF2, DEFAULT_PS_CONF3, DEFAULT_ALS_CONF]

/-- C2 witness: concrete constructions on an all-ok bus at the default
address and 100000 Hz produce exactly the traces above. -/
theorem C2_init_default_config_writes_witness :
    VCNL4200.init okBus 0 true false DEFAULT_I2C_ADDR 100000 =
      ([BusEvent.start 0 DEFAULT_I2C_ADDR 100000, BusEvent.write [0x03, 0xCA, 0x08],
        BusEvent.write [0x04, 0x00, 0x00]],
       Except.ok { drvsel := 0, address := DEFAULT_I2C_ADDR, clk := 100000 }) ∧
    VCNL4200.init okBus 0 false true DEFAULT_I2C_ADDR 100000 =
      ([BusEvent.start 0 DEFAULT_I2C_ADDR 100000, BusEvent.write [0x00, 0x00, 0x00]],
       Except.ok { drvsel := 0, address := DEFAULT_I2C_ADDR, clk := 100000 }) ∧
    VCNL4200.init okBus 0 false false DEFAULT_I2C_ADDR 100000 =
      ([BusEvent.start 0 DEFAULT_I2C_ADDR 100000],
       Except.ok { drvsel := 0, address := DEFAULT_I2C_ADDR, clk := 100000 }) :=
  C2_init_default_config_writes okBus 0 DEFAULT_I2C_ADDR 100000 rfl (fun _ _ => rfl)

/-- A bus accepting the start and exactly the writes addressed to the PS
config-1/2 register (first byte 0x03), rejecting every other write. -/
def psSecondWriteFailBus : BusBehavior where
  startResult := fun _ _ _ => true
  writeResult := fun _ bytes => bytes.headD 0 == 0x03
  readResult := fun _ _ _ => some [0x34, 0x12]

/-- C5: `configure_proximity_sensor` is not atomic: whenever the bus accepts
the first write `[0x03, conf1, conf2]` but rejects the following write
`[0x04, conf3, 0x00]`, the call returns the `BusError` to the caller while
the trace already contains the first write, which has taken effect. -/
theorem C5_ps_config_not_atomic (b : BusBehavior) (tr : List BusEvent)
    (conf1 conf2 conf3 : Nat)
    (h1 : b.writeResult tr [0x03, conf1, conf2] = true)
    (h2 : b.writeResult (tr ++ [BusEvent.write [0x03, conf1, conf2]])
            [0x04, conf3, 0x00] = false) :
    VCNL4200.configure_proximity_sensor b tr conf1 conf2 conf3 =
      (tr ++ [BusEvent.write [0x03, conf1, conf2]], Except.error BusError.busError) ∧
    BusEvent.write [0x03, conf1, conf2] ∈
      (VCNL4200.configure_proximity_sensor b tr conf1 conf2 conf3).1 := by
  have heq : VCNL4200.configure_proximity_sensor b tr conf1 conf2 conf3 =
      (tr ++ [BusEvent.write [0x03, conf1, conf2]], Except.error BusError.busError) := by
    simp [VCNL4200.configure_proximity_sensor, VCNL4200._write_register,
      VCNL4200._write_register_default, I2C.busWrite, REG_PS_CONF_1_2, REG_PS_CONF_3,
      h1, h2]
  exact ⟨heq, by rw [heq]; simp⟩

/-- C5 witness: on a bus rejecting the second proximity-configuration write,
the default configuration call errors with the first write already issued. -/
theorem C5_ps_config_not_atomic_witness :
    VCNL4200.configure_proximity_sensor psSecondWriteFailBus [] 0xCA 0x08 0x00 =
      ([BusEvent.write [0x03, 0xCA, 0x08]], Except.error BusError.busError) ∧
    BusEvent.write [0x03, 0xCA, 0x08] ∈
      (VCNL4200.configure_proximity_sensor psSecondWriteFailBus [] 0xCA 0x08 0x00).1 :=
  C5_ps_config_not_atomic psSecondWriteFailBus [] 0xCA 0x08 0x00 rfl rfl

/-- A bus on which every transaction fails: the start is refused, every write
is refused, every read answers nothing. -/
def deadBus : BusBehavior where
  startResult := fun _ _ _ => false
  writeResult := fun _ _ => false
  readResult := fun _ _ _ => none

/-- C6: bus failures surface as `BusError` and propagate unchanged.  A failed
open/start makes the constructor return the `BusError` (nothing issued); the
only error the constructor can ever return is `BusError`; a failed write and
a failed read each surface the `BusError` at the originating primitive with
no retry and no translation. -/
theorem C6_bus_error_propagation (b : BusBehavior) (d a c : Nat) (ps als : Bool) :
    (b.startResult d a c = false →
      VCNL4200.init b d ps als a c = ([], Except.error BusError.busError)) ∧
    (∀ e, (VCNL4200.init b d ps als a c).2 = Except.error e → e = BusError.busError) ∧
    (∀ tr bytes, b.writeResult tr bytes = false →
      I2C.busWrite b tr bytes = (tr, Except.error BusError.busError)) ∧
    (∀ tr addr, b.readResult tr addr 2 = none →
      (VCNL4200._read_register b tr addr).2 = Except.error BusError.busError) := by
  refine ⟨?_, ?_, ?_, ?_⟩
  · intro h
    simp [VCNL4200.init, I2C.busStart, h]
  · intro e _
    cases e
    rfl
  · intro tr bytes h
    simp [I2C.busWrite, h]
  · intro tr addr h
    simp [VCNL4200._read_register, I2C.busWriteRead, h]

/-- C6 witness: on a bus whose open fails, construction returns the
`BusError` with no transaction issued; failed write and read primitives do
the same. -/
theorem C6_bus_error_propagation_witness :
    VCNL4200.init deadBus 0 true true DEFAULT_I2C_ADDR 100000 =
      ([], Except.error BusError.busError) ∧
    I2C.busWrite deadBus [] [0x03, 0xCA, 0x08] = ([], Except.error BusError.busError) ∧
    (VCNL4200._read_register deadBus [] REG_PS_DATA).2 = Except.error BusError.busError :=
  ⟨(C6_bus_error_propagation deadBus 0 DEFAULT_I2C_ADDR 100000 true true).1 rfl,
   (C6_bus_error_propagation deadBus 0 DEFAULT_I2C_ADDR 100000 true true).2.2.1
     [] [0x03, 0xCA, 0x08] rfl,
   (C6_bus_error_propagation deadBus 0 DEFAULT_I2C_ADDR 100000 true true).2.2.2
     [] REG_PS_DATA rfl⟩

/-- A bus on which every transaction succeeds and every read answers the
maximal two-byte response `[255, 255]`. -/
def maxBus : BusBehavior where
  startResult := fun _ _ _ => true
  writeResult := fun _ _ => true
  readResult := fun _ _ _ => some [255, 255]

/-- C8: for every two-byte bus response whose bytes lie in 0..255, the value
returned by `get_ambient_light` (and likewise `get_distance`) lies in
0..65535, i.e. fits in a uint16. -/
theorem C8_result_fits_uint16 (b : BusBehavior) (tr : List BusEvent) (lo hi : Nat)
    (hlo : lo ≤ 255) (hhi : hi ≤ 255) :
    (b.readResult tr REG_ALS_DATA 2 = some [lo, hi] →
      (VCNL4200.get_ambient_light b tr).2 = Except.ok (lo + hi * 256) ∧
      lo + hi * 256 ≤ 65535) ∧
    (b.readResult tr REG_PS_DATA 2 = some [lo, hi] →
      (VCNL4200.get_distance b tr).2 = Except.ok (lo + hi * 256) ∧
      lo + hi * 256 ≤ 65535) := by
  constructor
  · intro h
    refine ⟨?_, by omega⟩
    simp [VCNL4200.get_ambient_light, VCNL4200._read_register, I2C.busWriteRead, h]
  · intro h
    refine ⟨?_, by omega⟩
    simp [VCNL4200.get_distance, VCNL4200._read_register, I2C.busWriteRead, h]

/-- C8 witness: the maximal response `[255, 255]` decodes to 65535 on both
readers, within uint16 range. -/
theorem C8_result_fits_uint16_witness :
    ((VCNL4200.get_ambient_light maxBus []).2 = Except.ok (255 + 255 * 256) ∧
      255 + 255 * 256 ≤ 65535) ∧
    ((VCNL4200.get_distance maxBus []).2 = Except.ok (255 + 255 * 256) ∧
      255 + 255 * 256 ≤ 65535) :=
  ⟨(C8_result_fits_uint16 maxBus [] 255 255 (by decide) (by decide)).1 rfl,
   (C8_result_fits_uint16 maxBus [] 255 255 (by decide) (by decide)).2 rfl⟩

/-- The clock rates of the open/start events of a trace, in order. -/
def startClocks (tr : List BusEvent) : List Nat :=
  tr.filterMap fun e =>
    match e with
    | BusEvent.start _ _ c => some c
    | _ => none

/-- How many open/start events a trace contains. -/
def startCount (tr : List BusEvent) : Nat :=
  (startClocks tr).length

theorem startCount_append (s t : List BusEvent) :
    startCount (s ++ t) = startCount s + startCount t := by
  simp [startCount, startClocks]

/-- The public operations available on a constructed device. -/
inductive DriverOp
  | getDistance
  | getAmbientLight
  | configurePS (conf1 conf2 conf3 : Nat)
  | configureALS (conf : Nat)
deriving Repr, DecidableEq

/-- The trace after running one public operation on the device. -/
def VCNL4200.runOp (b : BusBehavior) (tr : List BusEvent) : DriverOp → List BusEvent
  | DriverOp.getDistance => (VCNL4200.get_distance b tr).1
  | DriverOp.getAmbientLight => (VCNL4200.get_ambient_light b tr).1
  | DriverOp.configurePS conf1 conf2 conf3 =>
      (VCNL4200.configure_proximity_sensor b tr conf1 conf2 conf3).1
  | DriverOp.configureALS conf => (VCNL4200.configure_ambient_light_sensor b tr conf).1

/-- The trace after running a sequence of public operations on the device. -/
def VCNL4200.runOps (b : BusBehavior) (tr : List BusEvent) : List DriverOp → List BusEvent
  | [] => tr
  | op :: ops => VCNL4200.runOps b (VCNL4200.runOp b tr op) ops

theorem busWrite_trace (b : BusBehavior) (tr : List BusEvent) (bytes : List Nat) :
    ∃ dl, (I2C.busWrite b tr bytes).1 = tr ++ dl ∧ startCount dl = 0 := by
  by_cases h : b.writeResult tr bytes = true
  · exact ⟨[BusEvent.write bytes], by simp [I2C.busWrite, h, startCount, startClocks]⟩
  · exact ⟨[], by simp [I2C.busWrite, h, startCount, startClocks]⟩

theorem read_register_trace (b : BusBehavior) (tr : List BusEvent) (addr : Nat) :
    ∃ dl, (VCNL4200._read_register b tr addr).1 = tr ++ dl ∧ startCount dl = 0 := by
  unfold VCNL4200._read_register I2C.busWriteRead
  cases h : b.readResult tr addr 2 with
  | none => exact ⟨[], by simp [startCount, startClocks]⟩
  | some data =>
      exact ⟨[BusEvent.writeRead addr 2], by simp [startCount, startClocks]⟩

theorem configure_ps_trace (b : BusBehavior) (tr : List BusEvent) (c1 c2 c3 : Nat) :
    ∃ dl, (VCNL4200.configure_proximity_sensor b tr c1 c2 c3).1 = tr ++ dl ∧
      startCount dl = 0 := by
  unfold VCNL4200.configure_proximity_sensor VCNL4200._write_register_default
    VCNL4200._write_register
  by_cases h1 : b.writeResult tr [REG_PS_CONF_1_2, c1, c2] = true
  · by_cases h2 : b.writeResult (tr ++ [BusEvent.write [REG_PS_CONF_1_2, c1, c2]])
        [REG_PS_CONF_3, c3, 0x00] = true
    · refine ⟨[BusEvent.write [REG_PS_CONF_1_2, c1, c2],
        BusEvent.write [REG_PS_CONF_3, c3, 0x00]], ?_, ?_⟩
      · simp [I2C.busWrite, h1, h2]
      · simp [startCount, startClocks]
    · refine ⟨[BusEvent.write [REG_PS_CONF_1_2, c1, c2]], ?_, ?_⟩
      · simp [I2C.busWrite, h1, h2]
      · simp [startCount, startClocks]
  · refine ⟨[], ?_, ?_⟩
    · simp [I2C.busWrite, h1]
    · simp [startCount, startClocks]

theorem configure_als_trace (b : BusBehavior) (tr : List BusEvent) (c : Nat) :
    ∃ dl, (VCNL4200.configure_ambient_light_sensor b tr c).1 = tr ++ dl ∧
      startCount dl = 0 := by
  unfold VCNL4200.configure_ambient_light_sensor VCNL4200._write_register_default
    VCNL4200._write_register
  exact busWrite_trace b tr [REG_ALS_CONF, c, 0x00]

theorem runOp_trace (b : BusBehavior) (tr : List BusEvent) (op : DriverOp) :
    ∃ dl, VCNL4200.runOp b tr op = tr ++ dl ∧ startCount dl = 0 := by
  cases op with
  | getDistance => exact read_register_trace b tr REG_PS_DATA
  | getAmbientLight => exact read_register_trace b tr REG_ALS_DATA
  | configurePS c1 c2 c3 => exact configure_ps_trace b tr c1 c2 c3
  | configureALS c => exact configure_als_trace b tr c

theorem runOps_trace (b : BusBehavior) (ops : List DriverOp) :
    ∀ tr, ∃ dl, VCNL4200.runOps b tr ops = tr ++ dl ∧ startCount dl = 0 := by
  induction ops with
  | nil => exact fun tr => ⟨[], by simp [VCNL4200.runOps, startCount, startClocks]⟩
  | cons op ops ih =>
      intro tr
      obtain ⟨d1, hd1, hs1⟩ := runOp_trace b tr op
      obtain ⟨d2, hd2, hs2⟩ := ih (VCNL4200.runOp b tr op)
      refine ⟨d1 ++ d2, ?_, ?_⟩
      · rw [VCNL4200.runOps, hd2, hd1, List.append_assoc]
      · rw [startCount_append]
        omega

theorem init_trace (b : BusBehavior) (d a c : Nat) (ps als : Bool)
    (h : b.startResult d a c = true) :
    ∃ t, (VCNL4200.init b d ps als a c).1 = BusEvent.start d a c :: t ∧
      startCount t = 0 := by
  have hbs : I2C.busStart b [] d a c = ([BusEvent.start d a c], Except.ok ()) := by
    simp [I2C.busStart, h]
  have hps : ∃ dl, ((if ps then
      VCNL4200.configure_proximity_sensor b [BusEvent.start d a c]
        DEFAULT_PS_CONF1 DEFAULT_PS_CONF2 DEFAULT_PS_CONF3
      else ([BusEvent.start d a c], Except.ok ()))).1 =
      [BusEvent.start d a c] ++ dl ∧ startCount dl = 0 := by
    cases ps
    · exact ⟨[], by simp [startCount, startClocks]⟩
    · simpa using configure_ps_trace b [BusEvent.start d a c]
        DEFAULT_PS_CONF1 DEFAULT_PS_CONF2 DEFAULT_PS_CONF3
  obtain ⟨dl1, hdl1, hs1⟩ := hps
  rcases h1 : (if ps then
      VCNL4200.configure_proximity_sensor b [BusEvent.start d a c]
        DEFAULT_PS_CONF1 DEFAULT_PS_CONF2 DEFAULT_PS_CONF3
      else ([BusEvent.start d a c], Except.ok ())) with ⟨tr1, r1⟩
  rw [h1] at hdl1
  simp only at hdl1
  have hals : ∃ dl, ((if als then
      VCNL4200.configure_ambient_light_sensor b tr1 DEFAULT_ALS_CONF
      else (tr1, Except.ok ()))).1 = tr1 ++ dl ∧ startCount dl = 0 := by
    cases als
    · exact ⟨[], by simp [startCount, startClocks]⟩
    · simpa using configure_als_trace b tr1 DEFAULT_ALS_CONF
  obtain ⟨dl2, hdl2, hs2⟩ := hals
  rcases h2 : (if als then
      VCNL4200.configure_ambient_light_sensor b tr1 DEFAULT_ALS_CONF
      else (tr1, Except.ok ())) with ⟨tr2, r2⟩
  rw [h2] at hdl2
  simp only at hdl2
  cases r1 with
  | error e =>
      refine ⟨dl1, ?_, hs1⟩
      simp [VCNL4200.init, hbs, h1, hdl1]
  | ok u =>
      cases r2 with
      | error e =>
          refine ⟨dl1 ++ dl2, ?_, ?_⟩
          · simp only [VCNL4200.init, hbs, h1, h2]
            subst hdl1
            subst hdl2
            simp
          · rw [startCount_append]; omega
      | ok u2 =>
          refine ⟨dl1 ++ dl2, ?_, ?_⟩
          · simp only [VCNL4200.init, hbs, h1, h2]
            subst hdl1
            subst hdl2
            simp
          · rw [startCount_append]; omega

/-- C7: for every sequence of public operations run after construction, the
bus is opened/started exactly once, and that start is the very first bus
transaction of the whole trace: no register read or write precedes it. -/
theorem C7_bus_started_once_before_access (b : BusBehavior) (d a c : Nat)
    (ps als : Bool) (ops : List DriverOp) (h : b.startResult d a c = true) :
    startCount (VCNL4200.runOps b (VCNL4200.init b d ps als a c).1 ops) = 1 ∧
    (VCNL4200.runOps b (VCNL4200.init b d ps als a c).1 ops).head? =
      some (BusEvent.start d a c) := by
  obtain ⟨t, ht, hst⟩ := init_trace b d a c ps als h
  obtain ⟨dl, hdl, hsd⟩ := runOps_trace b ops (VCNL4200.init b d ps als a c).1
  rw [hdl, ht, List.cons_append]
  constructor
  · have h1 : startCount (BusEvent.start d a c :: (t ++ dl)) =
        startCount (t ++ dl) + 1 := by
      simp [startCount, startClocks]
    rw [h1, startCount_append]
    omega
  · simp

/-- C7 witness: on an all-ok bus, a constructed device followed by a read and
a reconfiguration has exactly one start event, heading the trace. -/
theorem C7_bus_started_once_before_access_witness :
    startCount (VCNL4200.runOps okBus
      (VCNL4200.init okBus 0 true true DEFAULT_I2C_ADDR 100000).1
      [DriverOp.getDistance, DriverOp.configureALS 0x07]) = 1 ∧
    (VCNL4200.runOps okBus
      (VCNL4200.init okBus 0 true true DEFAULT_I2C_ADDR 100000).1
      [DriverOp.getDistance, DriverOp.configureALS 0x07]).head? =
      some (BusEvent.start 0 DEFAULT_I2C_ADDR 100000) :=
  C7_bus_started_once_before_access okBus 0 DEFAULT_I2C_ADDR 100000 true true
    [DriverOp.getDistance, DriverOp.configureALS 0x07] rfl

/-- C9 counterexample: the constructor performs no validation of the clock
rate; constructing at clk = 200000 opens the bus at 200000 Hz, which is
neither of the supported rates 100000 and 400000. -/
theorem C9_clock_rate_counterexample :
    startClocks (VCNL4200.init okBus 0 false false DEFAULT_I2C_ADDR 200000).1 =
      [200000] ∧ ¬(200000 = 100000 ∨ 200000 = 400000) :=
  ⟨rfl, by decide⟩

/-- C9 (amended): the constructor opens the bus exactly once at the
caller-supplied clock rate, unvalidated; whenever the supplied rate is one of
the supported rates 100000 or 400000 (as with the default 100000), the rate
the bus is opened at is a supported one. -/
theorem C9_clock_rate_amended (b : BusBehavior) (d a c : Nat) (ps als : Bool)
    (hc : c = 100000 ∨ c = 400000) (hs : b.startResult d a c = true) :
    startClocks (VCNL4200.init b d ps als a c).1 = [c] ∧
    (c = 100000 ∨ c = 400000) := by
  obtain ⟨t, ht, hst⟩ := init_trace b d a c ps als hs
  refine ⟨?_, hc⟩
  have h0 : startClocks t = [] := by
    simp only [startCount] at hst
    exact List.length_eq_zero.mp hst
  rw [ht]
  simp [startClocks, List.filterMap_cons] at h0 ⊢
  exact h0

/-- C9 witness: constructing at the default-supported 100000 Hz opens the bus
exactly once at 100000 Hz. -/
theorem C9_clock_rate_amended_witness :
    startClocks (VCNL4200.init okBus 0 true true DEFAULT_I2C_ADDR 100000).1 =
      [100000] ∧ (100000 = 100000 ∨ 100000 = 400000) :=
  C9_clock_rate_amended okBus 0 DEFAULT_I2C_ADDR 100000 true true (Or.inl rfl) rfl

/-- C10: with `address` and `clk` omitted, the constructor opens the bus at
device address 0x51 and clock rate 100000 Hz (the source defaults, the class
docstring advertising clk=400000 notwithstanding). -/
theorem C10_omitted_args_defaults (b : BusBehavior) (d : Nat) (ps als : Bool)
    (hs : b.startResult d DEFAULT_I2C_ADDR 100000 = true) :
    (VCNL4200.init_default b d ps als).1.head? =
      some (BusEvent.start d 0x51 100000) ∧ DEFAULT_I2C_ADDR = 0x51 := by
  obtain ⟨t, ht, _⟩ := init_trace b d DEFAULT_I2C_ADDR 100000 ps als hs
  refine ⟨?_, rfl⟩
  unfold VCNL4200.init_default
  rw [ht]
  simp [DEFAULT_I2C_ADDR]

/-- C10 witness: on an all-ok bus, construction with omitted address and
clock starts the port at (0x51, 100000). -/
theorem C10_omitted_args_defaults_witness :
    (VCNL4200.init_default okBus 0 true true).1.head? =
      some (BusEvent.start 0 0x51 100000) ∧ DEFAULT_I2C_ADDR = 0x51 :=
  C10_omitted_args_defaults okBus 0 true true rfl
